import Mathlib

set_option maxRecDepth 8192

/-!
Shallow embedding of the public-key trust and hybrid-encryption core of the
file-sharing application.  Bytes and character strings are modelled as
`List Nat` (byte values / ASCII codes).  The Node/forge cryptographic
primitives (AES, RSA, SHA-256 signatures, hashes) are external library calls,
so they are modelled as abstract function parameters collected in `Prims`;
the repository's own code (encodings, route handlers, CA logic) is translated
function by function.

Sources embedded here:
  src/backend/utils/crypto.js   (namespace CryptoUtils)
  src/backend/utils/ca.js       (namespace CaJs)
  src/backend/routes/auth.js    (namespace AuthRoutes)
  src/backend/routes/file.js    (namespace FileRoutes)
  src/backend/routes/message.js (namespace MessageRoutes)
  src/unnamed/part_007          (namespace Part007)
-/

/-- Hex digit (lower case) for a value `0..15`, as an ASCII code
(`Buffer.toString('hex')` uses lower-case digits). -/
def hexDigitChar (n : Nat) : Nat :=
  if n < 10 then 48 + n else 87 + n

/-- Value of an ASCII hex-digit code, `none` for a non-hex character. -/
def hexDigitVal (c : Nat) : Option Nat :=
  if 48 ≤ c ∧ c ≤ 57 then some (c - 48)
  else if 97 ≤ c ∧ c ≤ 102 then some (c - 97 + 10)
  else none

/-- `Buffer.toString('hex')`: each byte becomes two hex characters. -/
def hexEncode : List Nat → List Nat
  | [] => []
  | b :: rest => hexDigitChar (b / 16) :: hexDigitChar (b % 16) :: hexEncode rest

/-- `Buffer.from(s, 'hex')` on a well-formed hex string; `none` on a
malformed one (the Node primitive instead truncates, but every decode in the
embedded code paths receives either a well-formed string or a string whose
decoding cannot match the original bytes, and both models agree on the
observable verification outcome). -/
def hexDecode : List Nat → Option (List Nat)
  | [] => some []
  | c1 :: c2 :: rest =>
    match hexDigitVal c1, hexDigitVal c2, hexDecode rest with
    | some h, some l, some r => some ((h * 16 + l) :: r)
    | _, _, _ => none
  | _ => none

/-- Base64 alphabet character (ASCII code) for a sextet `0..63`. -/
def b64Char (s : Nat) : Nat :=
  if s < 26 then 65 + s
  else if s < 52 then 97 + (s - 26)
  else if s < 62 then 48 + (s - 52)
  else if s = 62 then 43
  else 47

/-- Value of a base64 alphabet character, `none` for characters outside the
alphabet (`=` included). -/
def b64Val (c : Nat) : Option Nat :=
  if 65 ≤ c ∧ c ≤ 90 then some (c - 65)
  else if 97 ≤ c ∧ c ≤ 122 then some (c - 97 + 26)
  else if 48 ≤ c ∧ c ≤ 57 then some (c - 48 + 52)
  else if c = 43 then some 62
  else if c = 47 then some 63
  else none

/-- `Buffer.toString('base64')` / `forge.util.encode64`: groups of three
bytes become four characters, with `=` (ASCII 61) padding. -/
def base64Encode : List Nat → List Nat
  | [] => []
  | [b1] => [b64Char (b1 / 4), b64Char (b1 % 4 * 16), 61, 61]
  | [b1, b2] =>
    [b64Char (b1 / 4), b64Char (b1 % 4 * 16 + b2 / 16), b64Char (b2 % 16 * 4), 61]
  | b1 :: b2 :: b3 :: rest =>
    b64Char (b1 / 4) :: b64Char (b1 % 4 * 16 + b2 / 16) ::
    b64Char (b2 % 16 * 4 + b3 / 64) :: b64Char (b3 % 64) :: base64Encode rest

/-- `Buffer.from(s, 'base64')` / `forge.util.decode64` on groups of four
characters; `none` when the input is not well-formed base64 (the library
primitives instead produce bytes unrelated to the original data; both models
make every downstream raw-byte comparison fail). -/
def base64Decode : List Nat → Option (List Nat)
  | [] => some []
  | c1 :: c2 :: c3 :: c4 :: rest =>
    match b64Val c1, b64Val c2 with
    | some s1, some s2 =>
      if c3 = 61 then
        if c4 = 61 then
          if rest = [] then some [s1 * 4 + s2 / 16] else none
        else none
      else
        match b64Val c3 with
        | some s3 =>
          if c4 = 61 then
            if rest = [] then some [s1 * 4 + s2 / 16, s2 % 16 * 16 + s3 / 4] else none
          else
            match b64Val c4, base64Decode rest with
            | some s4, some r =>
              some ((s1 * 4 + s2 / 16) :: (s2 % 16 * 16 + s3 / 4) :: (s3 % 4 * 64 + s4) :: r)
            | _, _ => none
        | none => none
    | _, _ => none
  | _ => none

theorem hexDigitVal_hexDigitChar : ∀ d < 16, hexDigitVal (hexDigitChar d) = some d := by
  decide

theorem hexDecode_hexEncode :
    ∀ bs : List Nat, (∀ b ∈ bs, b < 256) → hexDecode (hexEncode bs) = some bs := by
  intro bs
  induction bs with
  | nil => intro _; rfl
  | cons b rest ih =>
    intro h
    have hb : b < 256 := h b (List.mem_cons_self b rest)
    have h1 : b / 16 < 16 := by omega
    have h2 : b % 16 < 16 := by omega
    simp only [hexEncode, hexDecode,
      hexDigitVal_hexDigitChar _ h1, hexDigitVal_hexDigitChar _ h2,
      ih (fun x hx => h x (List.mem_cons_of_mem b hx))]
    have : b / 16 * 16 + b % 16 = b := by omega
    rw [this]

theorem b64Val_b64Char : ∀ s < 64, b64Val (b64Char s) = some s := by
  decide

theorem b64Char_ne_pad : ∀ s < 64, b64Char s ≠ 61 := by
  decide

theorem base64Decode_base64Encode :
    ∀ bs : List Nat, (∀ b ∈ bs, b < 256) → base64Decode (base64Encode bs) = some bs
  | [] => by intro _; rfl
  | [b1] => by
    intro h
    have hb1 : b1 < 256 := h b1 (by simp)
    have h1 : b1 / 4 < 64 := by omega
    have h2 : b1 % 4 * 16 < 64 := by omega
    simp only [base64Encode, base64Decode,
      b64Val_b64Char _ h1, b64Val_b64Char _ h2, if_pos rfl]
    have : b1 / 4 * 4 + b1 % 4 * 16 / 16 = b1 := by omega
    rw [this]
    simp
  | [b1, b2] => by
    intro h
    have hb1 : b1 < 256 := h b1 (by simp)
    have hb2 : b2 < 256 := h b2 (by simp)
    have h1 : b1 / 4 < 64 := by omega
    have h2 : b1 % 4 * 16 + b2 / 16 < 64 := by omega
    have h3 : b2 % 16 * 4 < 64 := by omega
    simp only [base64Encode, base64Decode,
      b64Val_b64Char _ h1, b64Val_b64Char _ h2,
      if_neg (b64Char_ne_pad _ h3), b64Val_b64Char _ h3, if_pos rfl]
    have e1 : b1 / 4 * 4 + (b1 % 4 * 16 + b2 / 16) / 16 = b1 := by omega
    have e2 : (b1 % 4 * 16 + b2 / 16) % 16 * 16 + b2 % 16 * 4 / 4 = b2 := by omega
    rw [e1, e2]
    simp
  | b1 :: b2 :: b3 :: rest => by
    intro h
    have hb1 : b1 < 256 := h b1 (by simp)
    have hb2 : b2 < 256 := h b2 (by simp)
    have hb3 : b3 < 256 := h b3 (by simp)
    have h1 : b1 / 4 < 64 := by omega
    have h2 : b1 % 4 * 16 + b2 / 16 < 64 := by omega
    have h3 : b2 % 16 * 4 + b3 / 64 < 64 := by omega
    have h4 : b3 % 64 < 64 := by omega
    have ih := base64Decode_base64Encode rest
      (fun x hx => h x (by simp only [List.mem_cons] at hx ⊢; tauto))
    simp only [base64Encode, base64Decode,
      b64Val_b64Char _ h1, b64Val_b64Char _ h2,
      if_neg (b64Char_ne_pad _ h3), b64Val_b64Char _ h3,
      if_neg (b64Char_ne_pad _ h4), b64Val_b64Char _ h4, ih]
    have e1 : b1 / 4 * 4 + (b1 % 4 * 16 + b2 / 16) / 16 = b1 := by omega
    have e2 : (b1 % 4 * 16 + b2 / 16) % 16 * 16 + (b2 % 16 * 4 + b3 / 64) / 4 = b2 := by
      omega
    have e3 : (b2 % 16 * 4 + b3 / 64) % 4 * 64 + b3 % 64 = b3 := by omega
    rw [e1, e2, e3]

/-- Abstract cryptographic primitives (Node `crypto` / `node-forge` library
calls).  Keys are identifiers (`Nat`); a key pair is a pair of identifiers
related only through the hypotheses of the theorems that use them.

  `aesEnc key data` — `crypto.createCipher('aes-256-cbc', key)` followed by
     `update`/`final`.  `createCipher` derives the actual cipher key from the
     password alone, so the function receives no IV input.
  `aesDec key data` — `crypto.createDecipher('aes-256-cbc', key)`.
  `rsaEnc pub data` / `rsaDec priv data` — RSA encrypt/decrypt raw bytes.
  `rsaSign priv data` — raw (unencoded) SHA-256 RSA signature bytes.
  `rsaVerify pub data sig` — raw signature verification.
  `hash data` — raw SHA-256 digest bytes. -/
structure Prims where
  aesEnc : List Nat → List Nat → List Nat
  aesDec : List Nat → List Nat → List Nat
  rsaEnc : Nat → List Nat → List Nat
  rsaDec : Nat → List Nat → List Nat
  rsaSign : Nat → List Nat → List Nat
  rsaVerify : Nat → List Nat → List Nat → Bool
  hash : List Nat → List Nat

/-- A concrete executable instantiation of the primitives used to evaluate
the embedded code on concrete inputs: AES prepends the key, RSA prepends the
key identifier, a signature is the signer's key identifier followed by the
data, and verification recomputes the expected signature.  A key pair is two
equal identifiers. -/
def toyPrims : Prims where
  aesEnc key data := key ++ data
  aesDec key data := data.drop key.length
  rsaEnc pub data := pub % 256 :: data
  rsaDec _priv data := data.drop 1
  rsaSign priv data := priv % 256 :: data
  rsaVerify pub data sig := sig == pub % 256 :: data
  hash data := 99 :: data

/-- `crypto.publicEncrypt` on a 2048-bit key: plaintexts longer than the
OAEP limit of 214 bytes make the library throw; the error is modelled as the
`Except.error` branch. -/
def nodePublicEncrypt (p : Prims) (pub : Nat) (data : List Nat) : Except String (List Nat) :=
  if data.length > 214 then .error "data too large for key size"
  else .ok (p.rsaEnc pub data)

/-- Certificate data relevant to verification: serial number and validity
window (times are wall-clock instants as `Nat`).  Whether the certificate's
signature validates against the CA key is abstracted as a `Cert → Bool`
parameter (`caVerify`) wherever verification occurs. -/
structure Cert where
  serial : Nat
  notBefore : Nat
  notAfter : Nat
deriving DecidableEq

namespace CryptoUtils

/-- Result shape of `encryptAES` in src/backend/utils/crypto.js: an `iv`
field (hex of the 16 random bytes) and the hex ciphertext. -/
structure EncResult where
  iv : List Nat
  encryptedData : List Nat
deriving DecidableEq

/-- src/backend/utils/crypto.js `encryptAES(data, key)`: generates random
bytes for `iv` (the randomness is the explicit `ivRandom` argument here) but
encrypts with `crypto.createCipher('aes-256-cbc', key)`, which never receives
that IV; the ciphertext is hex-encoded. -/
def encryptAES (p : Prims) (data key ivRandom : List Nat) : EncResult :=
  { iv := hexEncode ivRandom
    encryptedData := hexEncode (p.aesEnc key data) }

/-- src/backend/utils/crypto.js `decryptAES(encryptedData, key, iv)`: decodes
the hex ciphertext and decrypts with `crypto.createDecipher('aes-256-cbc',
key)`; the `iv` parameter is accepted (possibly absent, hence `Option`) but
never used. -/
def decryptAES (p : Prims) (encryptedData key : List Nat) (iv : Option (List Nat)) :
    Option (List Nat) :=
  match hexDecode encryptedData with
  | some raw => some (p.aesDec key raw)
  | none => none

/-- src/backend/utils/crypto.js `encryptRSA(data, publicKey)`:
`crypto.publicEncrypt(publicKey, Buffer.from(data)).toString('base64')`. -/
def encryptRSA (p : Prims) (data : List Nat) (pub : Nat) : Except String (List Nat) :=
  (nodePublicEncrypt p pub data).map base64Encode

/-- src/backend/utils/crypto.js `decryptRSA(encryptedData, privateKey)`:
`crypto.privateDecrypt(privateKey, Buffer.from(encryptedData, 'base64'))`. -/
def decryptRSA (p : Prims) (encryptedData : List Nat) (priv : Nat) : Option (List Nat) :=
  (base64Decode encryptedData).map (p.rsaDec priv)

/-- src/backend/utils/crypto.js `createSignature(data, privateKey)`:
`sign.sign(privateKey, 'hex')` — the raw signature bytes, hex-encoded. -/
def createSignature (p : Prims) (data : List Nat) (priv : Nat) : List Nat :=
  hexEncode (p.rsaSign priv data)

/-- src/backend/utils/crypto.js `verifySignature(data, signature,
publicKey)`: `verify.verify(publicKey, signature, 'hex')` — the signature
string is decoded as hex and the raw bytes verified. -/
def verifySignature (p : Prims) (data signature : List Nat) (pub : Nat) : Bool :=
  match hexDecode signature with
  | some raw => p.rsaVerify pub data raw
  | none => false

/-- src/backend/utils/crypto.js `generateHash(data)`: hex SHA-256 digest. -/
def generateHash (p : Prims) (data : List Nat) : List Nat :=
  hexEncode (p.hash data)

/-- src/backend/utils/crypto.js `verifyCertificate(certPem, caCertPem)`:
returns `false` when `now` is outside the validity window, otherwise the
boolean result of checking the certificate signature against the CA public
key (`caVerify`).  It consults no revocation data and returns a bare
boolean. -/
def verifyCertificate (caVerify : Cert → Bool) (now : Nat) (cert : Cert) : Bool :=
  if now < cert.notBefore ∨ now > cert.notAfter then false
  else caVerify cert

end CryptoUtils

/-- src/backend/utils/crypto.js `createCertificate(..., subject, issuer,
...)`: the subject/issuer distinguished names are modelled as identifiers.
`cert.setIssuer(issuer || attrs)` falls back to the subject attributes when
`issuer` is `null` (self-signed), and the extension list always contains
`basicConstraints` with `cA: false`.  Only the fields the claims are about
are modelled (`keyId` identifies the key pair the certificate carries). -/
structure RootCert where
  subject : Nat
  issuer : Nat
  caFlag : Bool
  keyId : Nat
deriving DecidableEq

def CryptoUtils.createCertificate (subject : Nat) (issuer : Option Nat) (keyId : Nat) :
    RootCert :=
  { subject := subject
    issuer := issuer.getD subject
    caFlag := false
    keyId := keyId }

/-- Condition of a PEM file on disk: absent, present but unreadable or
unparsable, or present with parsable content `a`. -/
inductive FileCond (α : Type) where
  | absent
  | corrupt
  | stored (a : α)
deriving DecidableEq

/-- The CA's on-disk state: the root private-key file and the root
certificate file. -/
structure CAFiles where
  keyFile : FileCond Nat
  certFile : FileCond RootCert
deriving DecidableEq

namespace Part007

/-- src/unnamed/part_007 `CryptoUtils.signData(data, privateKeyPem)`:
`forge.util.encode64(privateKey.sign(md))` — the raw signature bytes,
base64-encoded. -/
def signData (p : Prims) (data : List Nat) (priv : Nat) : List Nat :=
  base64Encode (p.rsaSign priv data)

/-- src/unnamed/part_007 `CryptoUtils.verifySignature(data, signature,
publicKeyPem)`: decodes the signature with `forge.util.decode64` and
verifies the raw bytes; any failure is caught and returned as `false`. -/
def verifySignature (p : Prims) (data signature : List Nat) (pub : Nat) : Bool :=
  match base64Decode signature with
  | some raw => p.rsaVerify pub data raw
  | none => false

/-- Result shape of src/unnamed/part_007 `verifyCertificate`:
`{ valid, expired, revoked, certificate }` (the parsed certificate is not
needed by the claims). -/
structure VerifyResult where
  valid : Bool
  expired : Bool
  revoked : Bool
deriving DecidableEq

/-- src/unnamed/part_007 `CertificateAuthority.verifyCertificate`:
`verified` is the forge CA-signature check (`caVerify`), `notExpired`
compares the clock with the validity window, `isRevoked` queries the
`revoked_certificates` set (modelled as a list of serials), and the result
is the record of all three. -/
def verifyCertificate (caVerify : Cert → Bool) (now : Nat) (revokedSet : List Nat)
    (cert : Cert) : VerifyResult :=
  let verified := caVerify cert
  let notExpired := decide (cert.notBefore ≤ now) && decide (now ≤ cert.notAfter)
  let isRevoked := revokedSet.contains cert.serial
  { valid := verified && notExpired && !isRevoked
    expired := !notExpired
    revoked := isRevoked }

/-- src/unnamed/part_007 `revokeCertificate(serialNumber, reason)`:
`INSERT INTO revoked_certificates ... ON CONFLICT (certificate_serial) DO
NOTHING` — adds the serial to the set when it is not already present. -/
def revokeCertificate (revokedSet : List Nat) (serial : Nat) : List Nat :=
  if revokedSet.contains serial then revokedSet else serial :: revokedSet

/-- src/unnamed/part_007 `isCertificateRevoked(serialNumber)`: membership
query on the revoked-serials set. -/
def isCertificateRevoked (revokedSet : List Nat) (serial : Nat) : Bool :=
  revokedSet.contains serial

/-- Outcome of src/unnamed/part_007 `initializeCA`: either the existing root
was loaded, or a new self-signed root was created and saved.  There is no
error outcome for an existing-but-unreadable root: the `catch` around the
two `readFile`/`...FromPem` calls falls through to CA creation. -/
inductive InitOutcome7 where
  | loaded (r : RootCert)
  | created (r : RootCert)
deriving DecidableEq

/-- The root certificate src/unnamed/part_007 `initializeCA` creates:
subject and issuer are both the CA attribute list (`setSubject(caAttrs)`,
`setIssuer(caAttrs)`), `basicConstraints` has `cA: true`, and it carries the
freshly generated key pair. -/
def mkRootCert (caAttrs : Nat) (freshKey : Nat) : RootCert :=
  { subject := caAttrs
    issuer := caAttrs
    caFlag := true
    keyId := freshKey }

/-- Attribute-list identifier for the part_007 CA subject
(`commonName: 'Secure App CA'`, ...). -/
def caAttrs : Nat := 1

/-- src/unnamed/part_007 `CertificateAuthority.initializeCA()`: tries to
read and parse both root files; on success loads them and returns.  On ANY
failure (missing or corrupt file alike) it generates a fresh key pair
(`freshKey` models the generated randomness), self-signs a new root
certificate and writes both files, overwriting whatever was there. -/
def initializeCA (fs : CAFiles) (freshKey : Nat) : CAFiles × InitOutcome7 :=
  match fs.keyFile, fs.certFile with
  | .stored _, .stored r => (fs, .loaded r)
  | _, _ =>
    let r := mkRootCert caAttrs freshKey
    ({ keyFile := .stored freshKey, certFile := .stored r }, .created r)

end Part007

namespace CaJs

/-- Outcome of src/backend/utils/ca.js `initializeCA`: either both files
already exist (by `fs.pathExists`, which does not read or parse them) and
the function returns at once, or a new root is created and saved. -/
inductive InitOutcomeB where
  | alreadyInit
  | created (r : RootCert)
deriving DecidableEq

/-- Attribute-list identifier for the backend CA subject
(`commonName: 'Secure File Sharing CA'`, ...). -/
def caSubject : Nat := 2

/-- src/backend/utils/ca.js `initializeCA()`: if `pathExists` holds for both
the key file and the certificate file it returns without reading them;
otherwise it generates a key pair and builds the root through
`CryptoUtils.createCertificate(pub, priv, caSubject, null, serial)` —
self-signed (`issuer = null` falls back to the subject attributes) but with
the `cA: false` basicConstraints that `createCertificate` always sets. -/
def initializeCA (fs : CAFiles) (freshKey : Nat) : CAFiles × InitOutcomeB :=
  if fs.keyFile ≠ .absent ∧ fs.certFile ≠ .absent then (fs, .alreadyInit)
  else
    let r := CryptoUtils.createCertificate caSubject none freshKey
    ({ keyFile := .stored freshKey, certFile := .stored r }, .created r)

/-- src/backend/utils/ca.js `revokeCertificate(serial)`: logs a message and
returns `true`.  The class has no revocation set, no field is written, and
no other function consults revocation data. -/
def revokeCertificate (serial : Nat) : Bool :=
  true

end CaJs

namespace AuthRoutes

/-- A stored user row as read by src/backend/routes/auth.js `/login`
(`username`, `publicKey`, `certificate`, `isRevoked`, `expiresAt`,
`lastLogin`). -/
structure User where
  username : List Nat
  publicKey : Nat
  certificate : Cert
  isRevoked : Bool
  expiresAt : Nat
  lastLogin : Option Nat
deriving DecidableEq

/-- The server-side state the auth routes read and write.  The module keeps
only the user collection: the `/challenge` handler stores nothing, and no
collection of issued or consumed challenges exists anywhere in the code. -/
structure ServerState where
  users : List User
deriving DecidableEq

/-- Request body of src/backend/routes/auth.js `/login`:
`{ username, challenge, signature }`, all strings from the client. -/
structure LoginRequest where
  username : List Nat
  challenge : List Nat
  signature : List Nat
deriving DecidableEq

/-- The distinct responses of src/backend/routes/auth.js `/login`. -/
inductive LoginResult where
  | badRequest
  | invalidCredentials
  | certificateRevoked
  | certificateExpired
  | invalidCertificate
  | invalidSignature
  | success
deriving DecidableEq

/-- src/backend/routes/auth.js `POST /challenge`: responds with
`CryptoUtils.generateHash(Date.now().toString() + Math.random().toString())`
(`seed` models that input) and writes nothing: the state is returned
unchanged because the handler has nothing to record the nonce in. -/
def challengeRoute (p : Prims) (st : ServerState) (seed : List Nat) :
    ServerState × List Nat :=
  (st, CryptoUtils.generateHash p seed)

/-- src/backend/routes/auth.js `POST /login`: validates presence of the
fields, finds the user, rejects a revoked or expired certificate, verifies
the certificate against the CA, then verifies the signature OVER THE
CLIENT-SUPPLIED `challenge` string with the stored public key; on success
updates `lastLogin` and issues a token.  No comparison with any
server-issued nonce occurs. -/
def loginRoute (p : Prims) (caVerify : Cert → Bool) (now : Nat)
    (st : ServerState) (req : LoginRequest) : ServerState × LoginResult :=
  if req.username = [] ∨ req.challenge = [] ∨ req.signature = [] then
    (st, .badRequest)
  else
    match st.users.find? (fun u => u.username == req.username) with
    | none => (st, .invalidCredentials)
    | some user =>
      if user.isRevoked then (st, .certificateRevoked)
      else if now > user.expiresAt then (st, .certificateExpired)
      else if ¬ CryptoUtils.verifyCertificate caVerify now user.certificate then
        (st, .invalidCertificate)
      else if ¬ CryptoUtils.verifySignature p req.challenge req.signature user.publicKey then
        (st, .invalidSignature)
      else
        ({ users := st.users.map fun u =>
             if u.username == req.username then { u with lastLogin := some now } else u },
         .success)

end AuthRoutes

namespace FileRoutes

/-- The `File` document src/backend/routes/file.js stores: the base64 of
the RSA ciphertext and the hex signature string. -/
structure StoredFile where
  content : List Nat
  signature : List Nat
deriving DecidableEq

/-- src/backend/routes/file.js `POST /upload`: RSA-encrypts THE WHOLE
`fileContent` with the recipient's public key
(`crypto.publicEncrypt(recipient.publicKey, Buffer.from(fileContent))`, an
operation limited to 214 plaintext bytes) and signs the PLAINTEXT
(`crypto.createSign('SHA256').update(fileContent).sign(privateKey, 'hex')`). -/
def upload (p : Prims) (fileContent : List Nat) (recipientPub senderPriv : Nat) :
    Except String StoredFile :=
  match nodePublicEncrypt p recipientPub fileContent with
  | .error e => .error e
  | .ok cipher =>
    .ok { content := base64Encode cipher
          signature := hexEncode (p.rsaSign senderPriv fileContent) }

/-- src/backend/routes/file.js `POST /download/:fileId`: decodes the stored
base64 `content` to `contentBuffer`, verifies the stored signature AGAINST
`contentBuffer` (the ciphertext, via `verify.update(contentBuffer)`), and
only then decrypts with the recipient's private key. -/
def download (p : Prims) (f : StoredFile) (recipientPriv senderPub : Nat) :
    Except String (List Nat) :=
  match base64Decode f.content with
  | none => .error "File download failed"
  | some contentBuffer =>
    let isValid :=
      match hexDecode f.signature with
      | some raw => p.rsaVerify senderPub contentBuffer raw
      | none => false
    if isValid then .ok (p.rsaDec recipientPriv contentBuffer)
    else .error "Invalid signature"

end FileRoutes

namespace MessageRoutes

/-- The `Message` document src/backend/routes/message.js stores:
hex AES ciphertext, base64 RSA-wrapped AES key, hex signature, hex hash. -/
structure StoredMessage where
  encryptedContent : List Nat
  encryptedKey : List Nat
  digitalSignature : List Nat
  messageHash : List Nat
deriving DecidableEq

/-- src/backend/routes/message.js `POST /send`: generates an AES key
(`aesKey`, 32 random bytes), AES-encrypts the content, RSA-encrypts
`aesKey.toString('hex')` with the recipient's public key, signs the
plaintext content with the sender's private key, and hashes the content. -/
def send (p : Prims) (content aesKey ivRandom : List Nat)
    (recipientPub senderPriv : Nat) : Except String StoredMessage :=
  let enc := CryptoUtils.encryptAES p content aesKey ivRandom
  match CryptoUtils.encryptRSA p (hexEncode aesKey) recipientPub with
  | .error e => .error e
  | .ok encryptedKey =>
    .ok { encryptedContent := enc.encryptedData
          encryptedKey := encryptedKey
          digitalSignature := CryptoUtils.createSignature p content senderPriv
          messageHash := CryptoUtils.generateHash p content }

/-- src/backend/routes/message.js `POST /view/:messageId`: RSA-decrypts the
wrapped key, reads it as hex (`Buffer.from(aesKeyHex, 'hex')`), AES-decrypts
the content — `decryptAES(message.encryptedContent, aesKey)` is called
WITHOUT an iv argument — then verifies the signature over the decrypted
plaintext and compares the recomputed hash. -/
def view (p : Prims) (m : StoredMessage) (recipientPriv senderPub : Nat) :
    Except String (List Nat) :=
  match CryptoUtils.decryptRSA p m.encryptedKey recipientPriv with
  | none => .error "Message view failed"
  | some aesKeyHex =>
    match hexDecode aesKeyHex with
    | none => .error "Message view failed"
    | some aesKey =>
      match CryptoUtils.decryptAES p m.encryptedContent aesKey none with
      | none => .error "Message view failed"
      | some decryptedContent =>
        if ¬ CryptoUtils.verifySignature p decryptedContent m.digitalSignature senderPub then
          .error "Message integrity check failed - invalid signature"
        else if CryptoUtils.generateHash p decryptedContent ≠ m.messageHash then
          .error "Message integrity check failed - hash mismatch"
        else
          .ok decryptedContent

end MessageRoutes

/-- A registered user fixture for evaluating the auth routes: username
"alice", key-pair identifier 7 (in `toyPrims` a public key verifies
signatures made with the equal private identifier), a certificate valid from
time 0 to time 100, not revoked. -/
def aliceUser : AuthRoutes.User :=
  { username := [97, 108, 105, 99, 101]
    publicKey := 7
    certificate := { serial := 1, notBefore := 0, notAfter := 100 }
    isRevoked := false
    expiresAt := 100
    lastLogin := none }

/-- A certificate fixture with serial number 5, valid from time 0 to 100. -/
def cert5 : Cert := { serial := 5, notBefore := 0, notAfter := 100 }

/-- Claim C10: the IV returned by `encryptAES` is never consumed by the
underlying cipher — the ciphertext is a function of the key and plaintext
alone (independent of the random bytes placed in the `iv` field), and
`decryptAES` returns the same result for every value of its `iv` argument,
an absent one (`none`) included. -/
theorem aes_iv_unused (p : Prims) (data key c ivr1 ivr2 : List Nat)
    (iv1 iv2 : Option (List Nat)) :
    (CryptoUtils.encryptAES p data key ivr1).encryptedData
      = (CryptoUtils.encryptAES p data key ivr2).encryptedData
    ∧ CryptoUtils.decryptAES p c key iv1 = CryptoUtils.decryptAES p c key iv2 :=
  ⟨rfl, rfl⟩

/-- Claim C1 (code bug): evaluating the two seal/open paths of the code on
the plaintext "hi" ([104, 105]) with matching toy key pairs (recipient 9,
sender 7... sender 5): the message path round-trips, but the file path
always fails with "Invalid signature", because `POST /upload` signs the
plaintext while `POST /download/:fileId` verifies that signature against the
RSA ciphertext buffer. -/
theorem seal_open_roundtrip_eval :
    (match FileRoutes.upload toyPrims [104, 105] 9 5 with
     | .ok f => FileRoutes.download toyPrims f 9 5
     | .error e => .error e) = .error "Invalid signature"
    ∧ (match MessageRoutes.send toyPrims [104, 105] [1, 2] [3] 9 5 with
       | .ok m => MessageRoutes.view toyPrims m 9 5
       | .error e => .error e) = .ok [104, 105] :=
  ⟨rfl, rfl⟩

/-- Claim C2 (code bug): the same challenge/signature pair submitted twice
is accepted twice.  `POST /challenge` stores nothing and `POST /login`
checks no consumed flag (none exists), so the first successful verification
leaves the nonce just as acceptable as before. -/
theorem challenge_replay_accepted_eval :
    (let cv : Cert → Bool := fun _ => true
     let st0 : AuthRoutes.ServerState := { users := [aliceUser] }
     let ch := (AuthRoutes.challengeRoute toyPrims st0 [9]).snd
     let req : AuthRoutes.LoginRequest :=
       { username := aliceUser.username
         challenge := ch
         signature := hexEncode (toyPrims.rsaSign 7 ch) }
     let r1 := AuthRoutes.loginRoute toyPrims cv 10 st0 req
     let r2 := AuthRoutes.loginRoute toyPrims cv 10 r1.fst req
     r1.snd = .success ∧ r2.snd = .success) :=
  ⟨rfl, rfl⟩

/-- Claim C3 (code bug): `POST /upload` RSA-encrypts the whole payload, so a
300-byte file hits the RSA plaintext-size limit and the upload fails; the
message path wraps only the 32-byte AES key (64 hex characters, far below
the 214-byte limit) and succeeds on the same kind of input. -/
theorem rsa_bulk_payload_eval :
    FileRoutes.upload toyPrims (List.replicate 300 0) 9 5
      = .error "data too large for key size"
    ∧ (match MessageRoutes.send toyPrims [104, 105] (List.replicate 32 7) [3] 9 5 with
       | .ok _ => true
       | .error _ => false) = true :=
  ⟨rfl, rfl⟩

/-- Claim C4 (code bug): `POST /login` verifies the signature over whatever
challenge string the client submits and never compares it with a
server-issued nonce, so a valid signature over a self-chosen nonce [65]
(distinct from the issued one) authenticates successfully; a signature made
with a key pair (8) that does not match the stored public key (7) is
rejected. -/
theorem wrong_nonce_signature_eval :
    (let cv : Cert → Bool := fun _ => true
     let st0 : AuthRoutes.ServerState := { users := [aliceUser] }
     let issued := (AuthRoutes.challengeRoute toyPrims st0 [9]).snd
     let forged : AuthRoutes.LoginRequest :=
       { username := aliceUser.username
         challenge := [65]
         signature := hexEncode (toyPrims.rsaSign 7 [65]) }
     let wrongKey : AuthRoutes.LoginRequest :=
       { username := aliceUser.username
         challenge := issued
         signature := hexEncode (toyPrims.rsaSign 8 issued) }
     issued ≠ [65]
     ∧ (AuthRoutes.loginRoute toyPrims cv 10 st0 forged).snd = .success
     ∧ (AuthRoutes.loginRoute toyPrims cv 10 st0 wrongKey).snd = .invalidSignature) :=
  ⟨by decide, rfl, rfl⟩

/-- Claim C5 counterexample: the backend verification path
(src/backend/utils/crypto.js `verifyCertificate`, the one `POST /login`
consults through ca.js) is a bare boolean, not a discriminated result: it
reports a certificate whose serial (5) is in the revocation set as plainly
`true` (it takes no revocation input at all), and an expired certificate and
a signature-invalid certificate produce the identical output `false`, so the
caller cannot distinguish the reasons. -/
theorem verify_cert_boolean_counterexample :
    CryptoUtils.verifyCertificate (fun _ => true) 10 cert5 = true
    ∧ Part007.isCertificateRevoked [5] cert5.serial = true
    ∧ CryptoUtils.verifyCertificate (fun _ => true) 200 cert5
        = CryptoUtils.verifyCertificate (fun _ => false) 10 cert5 :=
  ⟨rfl, rfl, rfl⟩

/-- Claim C5 (amended): the part_007 CA verification returns a discriminated
record: `valid` is true exactly when the CA signature validates, the clock
is inside the validity window and the serial is not revoked, while the
`expired` and `revoked` fields separately report the window check and the
revocation check, letting the caller tell the reasons apart (a signature
failure is the remaining case: `valid = false` with both flags clear).  The
backend utils path, by contrast, returns the bare boolean of the
counterexample. -/
theorem verify_cert_discriminated_amended (cv : Cert → Bool) (now : Nat)
    (revokedSet : List Nat) (cert : Cert) :
    ((Part007.verifyCertificate cv now revokedSet cert).valid = true ↔
      (cv cert = true ∧ cert.notBefore ≤ now ∧ now ≤ cert.notAfter ∧
        revokedSet.contains cert.serial = false))
    ∧ (Part007.verifyCertificate cv now revokedSet cert).expired
        = !(decide (cert.notBefore ≤ now) && decide (now ≤ cert.notAfter))
    ∧ (Part007.verifyCertificate cv now revokedSet cert).revoked
        = revokedSet.contains cert.serial := by
  refine ⟨?_, rfl, rfl⟩
  simp [Part007.verifyCertificate, Bool.and_eq_true, decide_eq_true_iff,
    Bool.not_eq_true', and_assoc]

/-- Claim C6 counterexample: the backend `revokeCertificate`
(src/backend/utils/ca.js) acknowledges with `true` but adds nothing to any
revocation set — the class has no such set and its type here reflects that —
and the backend certificate verification still reports the certificate with
that serial valid afterwards, so a revoked serial verifies as before. -/
theorem revoke_noop_counterexample :
    CaJs.revokeCertificate cert5.serial = true
    ∧ CryptoUtils.verifyCertificate (fun _ => true) 10 cert5 = true :=
  ⟨rfl, rfl⟩

/-- Claim C6 (amended): in the part_007 CA the revocation set is append-only
and revocation is idempotent: every previously revoked serial stays in the
set, the revoked serial is in the set afterwards, revoking twice equals
revoking once, and a certificate whose serial is in the set is never
reported valid by `verifyCertificate`.  The backend ca.js `revokeCertificate`
of the counterexample records nothing instead. -/
theorem revoke_add_only_amended (revokedSet : List Nat) (serial x : Nat)
    (cv : Cert → Bool) (now : Nat) (cert : Cert) :
    (revokedSet.contains x = true →
      (Part007.revokeCertificate revokedSet serial).contains x = true)
    ∧ (Part007.revokeCertificate revokedSet serial).contains serial = true
    ∧ Part007.revokeCertificate (Part007.revokeCertificate revokedSet serial) serial
        = Part007.revokeCertificate revokedSet serial
    ∧ (revokedSet.contains cert.serial = true →
        (Part007.verifyCertificate cv now revokedSet cert).valid = false) := by
  refine ⟨?_, ?_, ?_, ?_⟩
  · intro hx
    have hx' : x ∈ revokedSet := by simpa using hx
    unfold Part007.revokeCertificate
    by_cases hmem : serial ∈ revokedSet
    · simp [hmem, hx']
    · simp [hmem, hx']
  · unfold Part007.revokeCertificate
    by_cases hmem : serial ∈ revokedSet
    · simp [hmem]
    · simp [hmem]
  · unfold Part007.revokeCertificate
    by_cases hmem : serial ∈ revokedSet
    · simp [hmem]
    · simp [hmem]
  · intro h
    have h' : cert.serial ∈ revokedSet := by simpa using h
    simp [Part007.verifyCertificate, h']

/-- Witness for `revoke_add_only_amended` at the concrete set [3], serial 5
and a certificate carrying serial 3. -/
theorem revoke_add_only_amended_w :
    (([3] : List Nat).contains 3 = true
      ∧ ([3] : List Nat).contains 3 = true)
    ∧ ((Part007.revokeCertificate [3] 5).contains 3 = true
       ∧ (Part007.revokeCertificate [3] 5).contains 5 = true
       ∧ Part007.revokeCertificate (Part007.revokeCertificate [3] 5) 5
           = Part007.revokeCertificate [3] 5
       ∧ (Part007.verifyCertificate (fun _ => true) 10 [3]
            { serial := 3, notBefore := 0, notAfter := 100 }).valid = false) :=
  ⟨⟨by decide, by decide⟩,
   (fun h => ⟨h.1 (by decide), h.2.1, h.2.2.1, h.2.2.2 (by decide)⟩)
     (revoke_add_only_amended [3] 5 3 (fun _ => true) 10
       { serial := 3, notBefore := 0, notAfter := 100 })⟩

/-- Claim C7 counterexample: when no root exists, the backend ca.js
`initializeCA` creates its root through `CryptoUtils.createCertificate`,
which always emits `basicConstraints` with `cA: false` — so the
freshly created root is self-signed (issuer equals subject) but its `cA`
flag is false, not true as claimed. -/
theorem root_ca_flag_counterexample :
    (CaJs.initializeCA { keyFile := .absent, certFile := .absent } 42).snd
      = .created (CryptoUtils.createCertificate CaJs.caSubject none 42)
    ∧ (CryptoUtils.createCertificate CaJs.caSubject none 42).caFlag = false
    ∧ (CryptoUtils.createCertificate CaJs.caSubject none 42).issuer
        = (CryptoUtils.createCertificate CaJs.caSubject none 42).subject :=
  ⟨rfl, rfl, rfl⟩

/-- Claim C7 (amended): both `initializeCA` implementations are idempotent —
a second call never changes the state left by a first call, so repeated
calls never create a second root — and a readable existing root is loaded
unchanged.  When nothing exists, exactly one self-signed root (issuer equals
subject) is created; the part_007 root carries `cA: true`, while the backend
ca.js root inherits the `cA: false` of `createCertificate` shown by the
counterexample. -/
theorem ca_init_idempotent_amended (fs : CAFiles) (f1 f2 k : Nat) (r : RootCert) :
    (Part007.initializeCA (Part007.initializeCA fs f1).fst f2).fst
      = (Part007.initializeCA fs f1).fst
    ∧ (CaJs.initializeCA (CaJs.initializeCA fs f1).fst f2).fst
        = (CaJs.initializeCA fs f1).fst
    ∧ Part007.initializeCA { keyFile := .stored k, certFile := .stored r } f1
        = ({ keyFile := .stored k, certFile := .stored r }, .loaded r)
    ∧ (Part007.initializeCA { keyFile := .absent, certFile := .absent } f1).snd
        = .created (Part007.mkRootCert Part007.caAttrs f1)
    ∧ (Part007.mkRootCert Part007.caAttrs f1).issuer
        = (Part007.mkRootCert Part007.caAttrs f1).subject
    ∧ (Part007.mkRootCert Part007.caAttrs f1).caFlag = true := by
  obtain ⟨kf, cf⟩ := fs
  refine ⟨?_, ?_, rfl, rfl, rfl, rfl⟩
  · cases kf <;> cases cf <;> rfl
  · cases kf <;> cases cf <;> rfl

/-- A pre-existing root fixture (key pair 7) standing for the root whose key
file has become unreadable in the C8 scenario. -/
def oldRoot : RootCert :=
  { subject := Part007.caAttrs, issuer := Part007.caAttrs, caFlag := true, keyId := 7 }

/-- Claim C8 (code bug): with the root key file present but unparsable (and
the certificate file intact), part_007 `initializeCA` does not abort: the
read failure lands in the `catch` that falls through to CA creation, so it
silently generates and saves a brand-new root (key pair 42, replacing key
pair 7) and reports plain success.  The backend ca.js variant checks only
`pathExists`, so with both files present but corrupt it returns "already
initialized" success without reading them.  Neither raises a fatal error. -/
theorem corrupt_root_silent_regen_eval :
    Part007.initializeCA { keyFile := .corrupt, certFile := .stored oldRoot } 42
      = ({ keyFile := .stored 42, certFile := .stored (Part007.mkRootCert Part007.caAttrs 42) },
         .created (Part007.mkRootCert Part007.caAttrs 42))
    ∧ (Part007.mkRootCert Part007.caAttrs 42).keyId ≠ oldRoot.keyId
    ∧ CaJs.initializeCA { keyFile := .corrupt, certFile := .corrupt } 42
        = ({ keyFile := .corrupt, certFile := .corrupt }, .alreadyInit) :=
  ⟨rfl, by decide, rfl⟩

/-- Claim C9 counterexample: with matching toy keys (7/7) and data
[1, 2, 3], a signature produced by the backend utils sign function (hex
encoding) verifies under the backend utils verify function but FAILS under
the part_007 verify function (base64 decoding), even though the raw
signature itself is valid — the core mixes two binary-to-text encodings, so
sign/verify pairs do not compose across modules. -/
theorem signature_encoding_mismatch_counterexample :
    CryptoUtils.verifySignature toyPrims [1, 2, 3]
      (CryptoUtils.createSignature toyPrims [1, 2, 3] 7) 7 = true
    ∧ Part007.verifySignature toyPrims [1, 2, 3]
        (CryptoUtils.createSignature toyPrims [1, 2, 3] 7) 7 = false
    ∧ toyPrims.rsaVerify 7 [1, 2, 3] (toyPrims.rsaSign 7 [1, 2, 3]) = true :=
  ⟨rfl, rfl, rfl⟩

/-- Claim C9 (amended): each module is internally consistent about its
encoding — the backend utils pair hex-encodes on sign and hex-decodes on
verify, and the part_007 pair base64-encodes on sign and base64-decodes on
verify — so within one module a signature over the same data under matching
keys verifies; but the two modules use different encodings, so
cross-module verification fails as in the counterexample. -/
theorem signature_encoding_per_module_amended (p : Prims) (data : List Nat)
    (pub priv : Nat)
    (hver : p.rsaVerify pub data (p.rsaSign priv data) = true)
    (hbytes : ∀ b ∈ p.rsaSign priv data, b < 256) :
    CryptoUtils.verifySignature p data (CryptoUtils.createSignature p data priv) pub = true
    ∧ Part007.verifySignature p data (Part007.signData p data priv) pub = true := by
  constructor
  · simp only [CryptoUtils.verifySignature, CryptoUtils.createSignature,
      hexDecode_hexEncode _ hbytes]
    exact hver
  · simp only [Part007.verifySignature, Part007.signData,
      base64Decode_base64Encode _ hbytes]
    exact hver

/-- Witness for `signature_encoding_per_module_amended` with the toy
primitives, data [1, 2] and the matching key pair 7/7. -/
theorem signature_encoding_per_module_amended_w :
    (toyPrims.rsaVerify 7 [1, 2] (toyPrims.rsaSign 7 [1, 2]) = true
      ∧ ∀ b ∈ toyPrims.rsaSign 7 [1, 2], b < 256)
    ∧ (CryptoUtils.verifySignature toyPrims [1, 2]
         (CryptoUtils.createSignature toyPrims [1, 2] 7) 7 = true
       ∧ Part007.verifySignature toyPrims [1, 2]
           (Part007.signData toyPrims [1, 2] 7) 7 = true) :=
  ⟨⟨by decide, by decide⟩,
   signature_encoding_per_module_amended toyPrims [1, 2] 7 7 (by decide) (by decide)⟩
